import Mathlib

/-
Verification of gdal-type-traits: a compile-time mapping from C++ type
metadata (size, signedness, integral/float/enum classification) to the
GDALDataType enumeration.

The C++ source (src/gdal_type_traits.hpp) dispatches on the standard
type traits std::is_integral, std::is_floating_point, std::is_enum,
std::is_signed, sizeof, and std::underlying_type. We embed a C++ type
shallowly as the metadata those traits observe, and translate each
template of the source into a Lean function of that metadata.
-/

namespace gdaltypetraits

/-- The GDALDataType enumeration from gdal.h (GDAL 2.x era): the pixel
data type codes, including the 64-bit-size and complex codes that this
library never produces. -/
inductive GDALDataType where
  | GDT_Unknown
  | GDT_Byte
  | GDT_UInt16
  | GDT_Int16
  | GDT_UInt32
  | GDT_Int32
  | GDT_Float32
  | GDT_Float64
  | GDT_CInt16
  | GDT_CInt32
  | GDT_CFloat32
  | GDT_CFloat64
  deriving DecidableEq, Repr

/-- A C++ type, seen through the metadata the source inspects: the
boolean type, an integral type of a given size in bytes and signedness,
a floating-point type of a given size, an enumeration type whose
(necessarily integral) underlying type has a given size and signedness,
or any other type (pointer, class, ...) of a given size. -/
inductive CppType where
  | boolean
  | integral (size : Nat) (signed : Bool)
  | floating (size : Nat)
  | enum (usize : Nat) (usigned : Bool)
  | other (size : Nat)
  deriving DecidableEq, Repr

namespace CppType

/-- std::is_integral: true for bool and the integer types. -/
def is_integral : CppType → Bool
  | .boolean => true
  | .integral _ _ => true
  | _ => false

/-- std::is_floating_point. -/
def is_floating_point : CppType → Bool
  | .floating _ => true
  | _ => false

/-- std::is_enum. -/
def is_enum : CppType → Bool
  | .enum _ _ => true
  | _ => false

/-- std::is_signed: true for signed integer types and floating-point
types; false for bool, unsigned integers, enumerations (which are not
arithmetic types), and everything else. -/
def is_signed : CppType → Bool
  | .integral _ s => s
  | .floating _ => true
  | _ => false

/-- sizeof, in bytes (CHAR_BIT == 8 per the static_assert in the
source). sizeof of an enumeration equals sizeof of its underlying
type. -/
def sizeof : CppType → Nat
  | .boolean => 1
  | .integral s _ => s
  | .floating s => s
  | .enum us _ => us
  | .other s => s

/-- std::underlying_type: for an enumeration, its (integral) underlying
type. The source only instantiates it on enumeration types; on the
others we return the type itself. -/
def underlying_type : CppType → CppType
  | .enum us sg => .integral us sg
  | T => T

end CppType

open CppType

namespace internal

/-- internal::FloatToGDAL: convert the size of a floating point number
to a GDAL data type; sizes other than 4 and 8 hit the unspecialized
template, GDT_Unknown. -/
def FloatToGDAL (FloatSize : Nat) : GDALDataType :=
  match FloatSize with
  | 4 => .GDT_Float32
  | 8 => .GDT_Float64
  | _ => .GDT_Unknown

/-- internal::IntegralToGDAL: convert the size + signed property of an
integral type to a GDAL data type; combinations without an explicit
specialization hit the unspecialized template, GDT_Unknown. -/
def IntegralToGDAL (IntegralSize : Nat) (IsSigned : Bool) : GDALDataType :=
  match IntegralSize, IsSigned with
  | 1, false => .GDT_Byte
  | 1, true => .GDT_Byte
  | 2, false => .GDT_UInt16
  | 2, true => .GDT_Int16
  | 4, false => .GDT_UInt32
  | 4, true => .GDT_Int32
  | _, _ => .GDT_Unknown

/-- internal::BuiltInToGDAL specialization for IsIntegral = true
(Integral -> GDAL): consult IntegralToGDAL on (sizeof, is_signed). -/
def BuiltInToGDAL_integral (T : CppType) : GDALDataType :=
  IntegralToGDAL T.sizeof T.is_signed

/-- internal::BuiltInToGDAL specialization for IsFloat = true
(Float -> GDAL): consult FloatToGDAL on sizeof. -/
def BuiltInToGDAL_float (T : CppType) : GDALDataType :=
  FloatToGDAL T.sizeof

/-- internal::BuiltInToGDAL specialization for IsEnum = true
(Enumeration -> Integral -> GDAL): the value of the integral
specialization at the underlying type, i.e.
BuiltInToGDAL with flags true false false at std::underlying_type. -/
def BuiltInToGDAL_enum (T : CppType) : GDALDataType :=
  BuiltInToGDAL_integral T.underlying_type

/-- internal::BuiltInToGDAL: dispatch on the (IsIntegral, IsFloat,
IsEnum) classification flags to the matching specialization; every
flag combination without a specialization hits the unspecialized
template, GDT_Unknown. -/
def BuiltInToGDAL (IsIntegral IsFloat IsEnum : Bool) (T : CppType) : GDALDataType :=
  match IsIntegral, IsFloat, IsEnum with
  | true, false, false => BuiltInToGDAL_integral T
  | false, true, false => BuiltInToGDAL_float T
  | false, false, true => BuiltInToGDAL_enum T
  | _, _, _ => .GDT_Unknown

/-- internal::Convert: feed the standard-trait classification of T into
BuiltInToGDAL. -/
def Convert_value (T : CppType) : GDALDataType :=
  BuiltInToGDAL T.is_integral T.is_floating_point T.is_enum T

end internal

namespace Convert

/-- gdaltypetraits::Convert::value: the template argument mapped to a
GDAL data type. -/
def value (T : CppType) : GDALDataType :=
  internal.Convert_value T

/-- gdaltypetraits::Convert::is_recognized: whether or not the template
argument is a recognized GDAL data type. -/
def is_recognized (T : CppType) : Bool :=
  value T != .GDT_Unknown

end Convert

/-- Helper: IntegralToGDAL only ever produces one of the six integral
codes or GDT_Unknown. -/
theorem mem_range_IntegralToGDAL (s : Nat) (b : Bool) :
    internal.IntegralToGDAL s b = GDALDataType.GDT_Unknown ∨
    internal.IntegralToGDAL s b = GDALDataType.GDT_Byte ∨
    internal.IntegralToGDAL s b = GDALDataType.GDT_UInt16 ∨
    internal.IntegralToGDAL s b = GDALDataType.GDT_Int16 ∨
    internal.IntegralToGDAL s b = GDALDataType.GDT_UInt32 ∨
    internal.IntegralToGDAL s b = GDALDataType.GDT_Int32 := by
  rcases s with _ | _ | _ | _ | _ | s <;> cases b <;>
    first
      | decide
      | exact Or.inl rfl

/-- Helper: FloatToGDAL only ever produces GDT_Float32, GDT_Float64 or
GDT_Unknown. -/
theorem mem_range_FloatToGDAL (s : Nat) :
    internal.FloatToGDAL s = GDALDataType.GDT_Unknown ∨
    internal.FloatToGDAL s = GDALDataType.GDT_Float32 ∨
    internal.FloatToGDAL s = GDALDataType.GDT_Float64 := by
  rcases s with _ | _ | _ | _ | _ | _ | _ | _ | _ | s <;>
    first
      | decide
      | exact Or.inl rfl

/-- Helper: IntegralToGDAL hits the unspecialized template, GDT_Unknown,
at every size other than 1, 2 and 4, whatever the signedness. -/
theorem IntegralToGDAL_eq_unknown (s : Nat) (b : Bool)
    (h1 : s ≠ 1) (h2 : s ≠ 2) (h4 : s ≠ 4) :
    internal.IntegralToGDAL s b = GDALDataType.GDT_Unknown := by
  rcases s with _ | _ | _ | _ | _ | s
  · cases b <;> rfl
  · exact absurd rfl h1
  · exact absurd rfl h2
  · cases b <;> rfl
  · exact absurd rfl h4
  · cases b <;> rfl

/-- Helper: FloatToGDAL hits the unspecialized template, GDT_Unknown,
at every size other than 4 and 8. -/
theorem FloatToGDAL_eq_unknown (s : Nat)
    (h4 : s ≠ 4) (h8 : s ≠ 8) :
    internal.FloatToGDAL s = GDALDataType.GDT_Unknown := by
  rcases s with _ | _ | _ | _ | _ | _ | _ | _ | _ | s
  · rfl
  · rfl
  · rfl
  · rfl
  · exact absurd rfl h4
  · rfl
  · rfl
  · rfl
  · exact absurd rfl h8
  · rfl

/-- C1, counterexample: the claim's table omits (1, signed) and says
every unlisted metadata combination maps to GDT_Unknown, but the code
maps a 1-byte signed integral type (int8_t) to GDT_Byte, which is not
GDT_Unknown. -/
theorem c1_counterexample :
    internal.IntegralToGDAL 1 true = GDALDataType.GDT_Byte ∧
    Convert.value (CppType.integral 1 true) = GDALDataType.GDT_Byte ∧
    GDALDataType.GDT_Byte ≠ GDALDataType.GDT_Unknown := by
  decide

/-- C1, amended: the mapping equals the fixed lookup table with
(1, unsigned) and (1, signed) -> GDT_Byte, (2, unsigned) -> GDT_UInt16,
(2, signed) -> GDT_Int16, (4, unsigned) -> GDT_UInt32,
(4, signed) -> GDT_Int32 for integral types, 4 -> GDT_Float32 and
8 -> GDT_Float64 for floating-point types, and GDT_Unknown for every
combination not listed; in particular every 8-bit unsigned integral
type maps to GDT_Byte and every 4-byte floating-point type maps to
GDT_Float32. -/
theorem c1_lookup_table :
    (∀ s : Nat, ∀ b : Bool, internal.IntegralToGDAL s b =
      if s = 1 then GDALDataType.GDT_Byte
      else if s = 2 then
        (if b then GDALDataType.GDT_Int16 else GDALDataType.GDT_UInt16)
      else if s = 4 then
        (if b then GDALDataType.GDT_Int32 else GDALDataType.GDT_UInt32)
      else GDALDataType.GDT_Unknown) ∧
    (∀ s : Nat, internal.FloatToGDAL s =
      if s = 4 then GDALDataType.GDT_Float32
      else if s = 8 then GDALDataType.GDT_Float64
      else GDALDataType.GDT_Unknown) ∧
    (∀ T : CppType, T.is_integral = true → T.sizeof = 1 → T.is_signed = false →
      Convert.value T = GDALDataType.GDT_Byte) ∧
    (∀ T : CppType, T.is_floating_point = true → T.sizeof = 4 →
      Convert.value T = GDALDataType.GDT_Float32) := by
  refine ⟨?_, ?_, ?_, ?_⟩
  · intro s b
    rcases s with _ | _ | _ | _ | _ | s <;> cases b <;> rfl
  · intro s
    rcases s with _ | _ | _ | _ | _ | _ | _ | _ | _ | s <;> rfl
  · intro T hi h1 hs
    cases T with
    | boolean => rfl
    | integral s sg =>
      simp only [CppType.sizeof] at h1
      simp only [CppType.is_signed] at hs
      subst h1; subst hs; rfl
    | floating s => simp [CppType.is_integral] at hi
    | enum us sg => simp [CppType.is_integral] at hi
    | other s => simp [CppType.is_integral] at hi
  · intro T hf h4
    cases T with
    | floating s =>
      simp only [CppType.sizeof] at h4
      subst h4; rfl
    | boolean => simp [CppType.is_floating_point] at hf
    | integral s sg => simp [CppType.is_floating_point] at hf
    | enum us sg => simp [CppType.is_floating_point] at hf
    | other s => simp [CppType.is_floating_point] at hf

/-- C1, witness: the amended table theorem applied at uint8_t and at a
4-byte float. -/
theorem c1_witness :
    Convert.value (CppType.integral 1 false) = GDALDataType.GDT_Byte ∧
    Convert.value (CppType.floating 4) = GDALDataType.GDT_Float32 :=
  ⟨c1_lookup_table.2.2.1 (CppType.integral 1 false) rfl rfl rfl,
   c1_lookup_table.2.2.2 (CppType.floating 4) rfl rfl⟩

/-- C2: every type that is neither integral nor floating-point nor an
enumeration maps to GDT_Unknown and is reported as not recognized; the
mapping is a total function, so the GDT_Unknown sentinel is the only
failure outcome. -/
theorem c2_unknown_fallback (T : CppType)
    (hi : T.is_integral = false) (hf : T.is_floating_point = false)
    (he : T.is_enum = false) :
    Convert.value T = GDALDataType.GDT_Unknown ∧
    Convert.is_recognized T = false := by
  cases T <;>
    simp_all [CppType.is_integral, CppType.is_floating_point, CppType.is_enum,
      Convert.value, Convert.is_recognized, internal.Convert_value,
      internal.BuiltInToGDAL]

/-- C2, witness: an 8-byte pointer-like type (void*) maps to
GDT_Unknown and is not recognized. -/
theorem c2_witness :
    Convert.value (CppType.other 8) = GDALDataType.GDT_Unknown ∧
    Convert.is_recognized (CppType.other 8) = false :=
  c2_unknown_fallback (CppType.other 8) rfl rfl rfl

/-- C3: an enumeration type maps to exactly the GDAL data type of its
integral underlying type, whatever that underlying type's size and
signedness; in particular an enum with underlying int8_t maps to
GDT_Byte and one with underlying uint32_t maps to GDT_UInt32. -/
theorem c3_enum_maps_as_underlying :
    (∀ us : Nat, ∀ sg : Bool,
      Convert.value (CppType.enum us sg) =
        Convert.value (CppType.integral us sg)) ∧
    Convert.value (CppType.enum 1 true) = GDALDataType.GDT_Byte ∧
    Convert.value (CppType.enum 4 false) = GDALDataType.GDT_UInt32 := by
  refine ⟨fun us sg => rfl, rfl, rfl⟩

/-- C4: is_recognized is true exactly when the mapped value is not
GDT_Unknown; the public interface exposes only this two-way
classification. -/
theorem c4_is_recognized_iff (T : CppType) :
    Convert.is_recognized T = true ↔
      Convert.value T ≠ GDALDataType.GDT_Unknown := by
  simp [Convert.is_recognized]

/-- C4, witness: the equivalence instantiated at int8_t. -/
theorem c4_witness :
    Convert.is_recognized (CppType.integral 1 true) = true ↔
      Convert.value (CppType.integral 1 true) ≠ GDALDataType.GDT_Unknown :=
  c4_is_recognized_iff (CppType.integral 1 true)

/-- C5, counterexample: int64_t is a signed integral type of size 8,
yet the code maps it to GDT_Unknown and reports it as not recognized,
contradicting the claim that every integer type of whatever width is
mapped to a recognized data type. -/
theorem c5_counterexample :
    CppType.is_integral (CppType.integral 8 true) = true ∧
    Convert.value (CppType.integral 8 true) = GDALDataType.GDT_Unknown ∧
    Convert.is_recognized (CppType.integral 8 true) = false := by
  decide

/-- C5, amended: integral types of size 1, 2 or 4 bytes, floating-point
types of size 4 or 8 bytes, and enumeration types whose underlying type
has size 1, 2 or 4 bytes are recognized; integral types of every other
width (e.g. the 8-byte int64_t, uint64_t) and floating-point types of
sizes other than 4 and 8 map to GDT_Unknown and are not recognized. -/
theorem c5_recognized_widths :
    (∀ T : CppType, T.is_integral = true →
      T.sizeof = 1 ∨ T.sizeof = 2 ∨ T.sizeof = 4 →
      Convert.is_recognized T = true) ∧
    (∀ T : CppType, T.is_floating_point = true →
      T.sizeof = 4 ∨ T.sizeof = 8 →
      Convert.is_recognized T = true) ∧
    (∀ us : Nat, ∀ sg : Bool, us = 1 ∨ us = 2 ∨ us = 4 →
      Convert.is_recognized (CppType.enum us sg) = true) ∧
    (∀ T : CppType, T.is_integral = true →
      T.sizeof ≠ 1 → T.sizeof ≠ 2 → T.sizeof ≠ 4 →
      Convert.value T = GDALDataType.GDT_Unknown ∧
      Convert.is_recognized T = false) ∧
    (∀ T : CppType, T.is_floating_point = true →
      T.sizeof ≠ 4 → T.sizeof ≠ 8 →
      Convert.value T = GDALDataType.GDT_Unknown ∧
      Convert.is_recognized T = false) := by
  refine ⟨?_, ?_, ?_, ?_, ?_⟩
  · intro T hi hs
    cases T with
    | boolean => decide
    | integral s sg =>
      simp only [CppType.sizeof] at hs
      rcases hs with h | h | h <;> subst h <;> cases sg <;> decide
    | floating s => simp [CppType.is_integral] at hi
    | enum us sg => simp [CppType.is_integral] at hi
    | other s => simp [CppType.is_integral] at hi
  · intro T hf hs
    cases T with
    | floating s =>
      simp only [CppType.sizeof] at hs
      rcases hs with h | h <;> subst h <;> decide
    | boolean => simp [CppType.is_floating_point] at hf
    | integral s sg => simp [CppType.is_floating_point] at hf
    | enum us sg => simp [CppType.is_floating_point] at hf
    | other s => simp [CppType.is_floating_point] at hf
  · intro us sg hs
    rcases hs with h | h | h <;> subst h <;> cases sg <;> decide
  · intro T hi h1 h2 h4
    cases T with
    | boolean => exact absurd rfl h1
    | integral s sg =>
      have hv : Convert.value (CppType.integral s sg) = GDALDataType.GDT_Unknown :=
        IntegralToGDAL_eq_unknown s sg h1 h2 h4
      exact ⟨hv, by simp [Convert.is_recognized, hv]⟩
    | floating s => simp [CppType.is_integral] at hi
    | enum us sg => simp [CppType.is_integral] at hi
    | other s => simp [CppType.is_integral] at hi
  · intro T hf h4 h8
    cases T with
    | floating s =>
      have hv : Convert.value (CppType.floating s) = GDALDataType.GDT_Unknown :=
        FloatToGDAL_eq_unknown s h4 h8
      exact ⟨hv, by simp [Convert.is_recognized, hv]⟩
    | boolean => simp [CppType.is_floating_point] at hf
    | integral s sg => simp [CppType.is_floating_point] at hf
    | enum us sg => simp [CppType.is_floating_point] at hf
    | other s => simp [CppType.is_floating_point] at hf

/-- C5, witness: the amended theorem applied at uint16_t (recognized),
at int64_t (GDT_Unknown, not recognized), and at a hypothetical 2-byte
floating-point type (GDT_Unknown, not recognized). -/
theorem c5_witness :
    Convert.is_recognized (CppType.integral 2 false) = true ∧
    (Convert.value (CppType.integral 8 true) = GDALDataType.GDT_Unknown ∧
      Convert.is_recognized (CppType.integral 8 true) = false) ∧
    (Convert.value (CppType.floating 2) = GDALDataType.GDT_Unknown ∧
      Convert.is_recognized (CppType.floating 2) = false) :=
  ⟨c5_recognized_widths.1 (CppType.integral 2 false) rfl (Or.inr (Or.inl rfl)),
   c5_recognized_widths.2.2.2.1 (CppType.integral 8 true) rfl
     (by decide) (by decide) (by decide),
   c5_recognized_widths.2.2.2.2 (CppType.floating 2) rfl
     (by decide) (by decide)⟩

/-- C6, counterexample: two enumeration types whose underlying types
are uint16_t and int16_t agree on size (2), on signedness
(std::is_signed is false for every enumeration type) and on the
integral/float/enum classification, yet they map to different GDAL
data types (GDT_UInt16 vs GDT_Int16), refuting determinism as a
function of (size, signedness, classification) alone. -/
theorem c6_counterexample :
    CppType.sizeof (CppType.enum 2 false) = CppType.sizeof (CppType.enum 2 true) ∧
    CppType.is_signed (CppType.enum 2 false) = CppType.is_signed (CppType.enum 2 true) ∧
    CppType.is_integral (CppType.enum 2 false) = CppType.is_integral (CppType.enum 2 true) ∧
    CppType.is_floating_point (CppType.enum 2 false) =
      CppType.is_floating_point (CppType.enum 2 true) ∧
    CppType.is_enum (CppType.enum 2 false) = CppType.is_enum (CppType.enum 2 true) ∧
    Convert.value (CppType.enum 2 false) ≠ Convert.value (CppType.enum 2 true) := by
  decide

/-- C6, amended: Convert value is a deterministic function of the type
metadata consisting of size, signedness, the integral/float/enum
classification, and (for enumeration types) the signedness of the
underlying type: any two types agreeing on all of these map to the same
GDAL data type. -/
theorem c6_determinism (T1 T2 : CppType)
    (hsz : T1.sizeof = T2.sizeof)
    (hsg : T1.is_signed = T2.is_signed)
    (hi : T1.is_integral = T2.is_integral)
    (hf : T1.is_floating_point = T2.is_floating_point)
    (he : T1.is_enum = T2.is_enum)
    (hu : T1.is_enum = true →
      T1.underlying_type.is_signed = T2.underlying_type.is_signed) :
    Convert.value T1 = Convert.value T2 := by
  cases T1 <;> cases T2 <;>
    simp_all [CppType.sizeof, CppType.is_signed, CppType.is_integral,
      CppType.is_floating_point, CppType.is_enum, CppType.underlying_type,
      Convert.value, internal.Convert_value, internal.BuiltInToGDAL,
      internal.BuiltInToGDAL_integral, internal.BuiltInToGDAL_float,
      internal.BuiltInToGDAL_enum]

/-- C6, witness: bool and uint8_t share all the metadata, so they map
to the same GDAL data type. -/
theorem c6_witness :
    Convert.value CppType.boolean = Convert.value (CppType.integral 1 false) :=
  c6_determinism CppType.boolean (CppType.integral 1 false)
    rfl rfl rfl rfl rfl (fun h => by simp [CppType.is_enum] at h)

/-- C7: a 1-byte integral type maps to GDT_Byte whether it is signed or
unsigned; in particular int8_t maps to GDT_Byte exactly like
uint8_t. -/
theorem c7_one_byte_integral_ignores_sign :
    (∀ b : Bool, internal.IntegralToGDAL 1 b = GDALDataType.GDT_Byte) ∧
    (∀ T : CppType, T.is_integral = true → T.sizeof = 1 →
      Convert.value T = GDALDataType.GDT_Byte) := by
  constructor
  · intro b; cases b <;> rfl
  · intro T hi h1
    cases T with
    | boolean => rfl
    | integral s sg =>
      simp only [CppType.sizeof] at h1
      subst h1; cases sg <;> rfl
    | floating s => simp [CppType.is_integral] at hi
    | enum us sg => simp [CppType.is_integral] at hi
    | other s => simp [CppType.is_integral] at hi

/-- C7, witness: the theorem applied at int8_t, the signed 1-byte
integral type. -/
theorem c7_witness :
    Convert.value (CppType.integral 1 true) = GDALDataType.GDT_Byte :=
  c7_one_byte_integral_ignores_sign.2 (CppType.integral 1 true) rfl rfl

/-- C8: for every type, the mapped value lies in the eight-element set
consisting of GDT_Unknown, GDT_Byte, GDT_UInt16, GDT_Int16, GDT_UInt32,
GDT_Int32, GDT_Float32 and GDT_Float64; the 64-bit and complex pixel
codes are never produced. -/
theorem c8_range (T : CppType) :
    Convert.value T = GDALDataType.GDT_Unknown ∨
    Convert.value T = GDALDataType.GDT_Byte ∨
    Convert.value T = GDALDataType.GDT_UInt16 ∨
    Convert.value T = GDALDataType.GDT_Int16 ∨
    Convert.value T = GDALDataType.GDT_UInt32 ∨
    Convert.value T = GDALDataType.GDT_Int32 ∨
    Convert.value T = GDALDataType.GDT_Float32 ∨
    Convert.value T = GDALDataType.GDT_Float64 := by
  cases T with
  | boolean => decide
  | integral s sg =>
    have h := mem_range_IntegralToGDAL s sg
    simp only [Convert.value, internal.Convert_value, CppType.is_integral,
      CppType.is_floating_point, CppType.is_enum, internal.BuiltInToGDAL,
      internal.BuiltInToGDAL_integral, CppType.sizeof, CppType.is_signed]
    tauto
  | floating s =>
    have h := mem_range_FloatToGDAL s
    simp only [Convert.value, internal.Convert_value, CppType.is_integral,
      CppType.is_floating_point, CppType.is_enum, internal.BuiltInToGDAL,
      internal.BuiltInToGDAL_float, CppType.sizeof]
    tauto
  | enum us sg =>
    have h := mem_range_IntegralToGDAL us sg
    simp only [Convert.value, internal.Convert_value, CppType.is_integral,
      CppType.is_floating_point, CppType.is_enum, internal.BuiltInToGDAL,
      internal.BuiltInToGDAL_enum, internal.BuiltInToGDAL_integral,
      CppType.underlying_type, CppType.sizeof, CppType.is_signed]
    tauto
  | other s => exact Or.inl rfl

/-- C9: the boolean type is an unsigned 1-byte integral, so it maps to
GDT_Byte and is recognized. -/
theorem c9_bool_maps_to_byte :
    Convert.value CppType.boolean = GDALDataType.GDT_Byte ∧
    Convert.is_recognized CppType.boolean = true := by
  decide

end gdaltypetraits
